import Mathlib

/-!
Verification of the Flow AI Platform authentication service
(`src/backend/src/services/auth.py` and its collaborators) against its
natural-language specification.

The Python service is shallowly embedded: the database is an explicit
`AuthState` (lists of users, organizations and sessions), every service
operation is a pure function `AuthState → AuthState × Except Failure α`
(the returned state reflects what was committed, also on error paths),
and nondeterministic inputs (current time, freshly generated random
tokens and ids) are passed as explicit parameters.

The repository does not ship `src/models/user.py` or
`src/models/organization.py` (only their callers are present), so the
model-layer helpers (`is_locked`, `increment_failed_login`,
`update_login_tracking`, `is_active_user`, field defaults) are modelled
from the specification; each such definition is marked in its doc
comment.  The bcrypt and JWT primitives are external trusted black boxes
and are likewise modelled from the specification's contracts.
-/

namespace FlowAI

/-- Configuration relevant to the auth service, from
`src/backend/src/core/config.py` (lines 30-41).  Times are in seconds. -/
structure Config where
  JWT_SECRET : String
  JWT_ACCESS_TOKEN_EXPIRE_MINUTES : Nat
  JWT_REFRESH_TOKEN_EXPIRE_DAYS : Nat
  PASSWORD_MIN_LENGTH : Nat
  PASSWORD_REQUIRE_UPPERCASE : Bool
  PASSWORD_REQUIRE_LOWERCASE : Bool
  PASSWORD_REQUIRE_NUMBERS : Bool
  PASSWORD_REQUIRE_SPECIAL : Bool
deriving Repr, DecidableEq

/-- JSON-style claim values carried in a JWT payload.  `null` embeds
Python `None` (the `org_id` claim is `None` for users without an
organization). -/
inductive CVal
  | s (v : String)
  | n (v : Nat)
  | null
deriving Repr, DecidableEq

/-- Tokens as produced by the trusted JWT primitive.  Modelled from the
spec: §4.2 treats encode/decode as a black box whose tokens carry a
claim set and are signed with a symmetric secret; any string that is not
such a token is malformed. -/
inductive Token
  | signed (claims : List (String × CVal)) (secret : String)
  | malformed (raw : String)
deriving Repr, DecidableEq

/-- Failure modes of the three JWT decode outcomes distinguished by the
spec (§4.2): expired, bad signature, not a token at all. -/
inductive TokenError
  | Expired
  | InvalidSignature
  | Malformed
deriving Repr, DecidableEq

/-- Python `payload.get(key)`: first binding of `key` in the claim
dict, or nothing. -/
def lookupClaim (claims : List (String × CVal)) (key : String) : Option CVal :=
  (claims.find? (fun p => p.1 == key)).map (fun p => p.2)

/-- Python `dict.update` with the single key `"exp"`: any existing
`"exp"` binding is replaced, the new binding is appended. -/
def dictSetExp (claims : List (String × CVal)) (e : Nat) : List (String × CVal) :=
  claims.filter (fun p => p.1 ≠ "exp") ++ [("exp", CVal.n e)]

/-- Modelled from the spec: `verify(token_string) -> claims | TokenError`
checks signature and expiry and "fails with
TokenError\x7bExpired|InvalidSignature|Malformed\x7d" (§4.2).  The expiry has
elapsed when `now` is past the `exp` claim. -/
def jwtDecode (t : Token) (secret : String) (now : Nat) :
    Except TokenError (List (String × CVal)) :=
  match t with
  | Token.malformed _ => Except.error TokenError.Malformed
  | Token.signed claims sec =>
    if sec ≠ secret then Except.error TokenError.InvalidSignature
    else
      match lookupClaim claims "exp" with
      | Option.some (CVal.n e) =>
        if e < now then Except.error TokenError.Expired else Except.ok claims
      | _ => Except.ok claims

/-- Typed errors raised by the service, from
`src/backend/src/core/exceptions.py`: `AuthenticationError` (401),
`ValidationError` (422), `NotFoundError` (404), `ConflictError` (409).
`uncaughtTypeError` / `uncaughtValueError` / `uncaughtAttributeError`
embed Python exceptions that escape the service (no handler maps them;
FastAPI's catch-all `generic_exception_handler` turns them into a 500).
`uncaughtAttributeError` is what SQLAlchemy 2.x raises for the
`select(...).update(...)` statements in `reset_password` and
`logout_user`: a `Select` object has no `update()` method. -/
inductive Failure
  | authentication (msg : String)
  | validation (msg : String)
  | notFound (msg : String)
  | conflict (msg : String)
  | uncaughtTypeError
  | uncaughtValueError
  | uncaughtAttributeError
deriving Repr, DecidableEq

/-- HTTP status each failure is mapped to by the exception handlers in
`src/backend/src/core/exceptions.py`. -/
def statusCode : Failure → Nat
  | Failure.authentication _ => 401
  | Failure.validation _ => 422
  | Failure.notFound _ => 404
  | Failure.conflict _ => 409
  | Failure.uncaughtTypeError => 500
  | Failure.uncaughtValueError => 500
  | Failure.uncaughtAttributeError => 500

/-- Stable machine-readable error code of each failure
(`error_code` in `src/backend/src/core/exceptions.py`). -/
def errorCode : Failure → String
  | Failure.authentication _ => "AUTHENTICATION_ERROR"
  | Failure.validation _ => "VALIDATION_ERROR"
  | Failure.notFound _ => "NOT_FOUND"
  | Failure.conflict _ => "CONFLICT_ERROR"
  | Failure.uncaughtTypeError => "INTERNAL_ERROR"
  | Failure.uncaughtValueError => "INTERNAL_ERROR"
  | Failure.uncaughtAttributeError => "INTERNAL_ERROR"

/-- Modelled from the spec: the Credential Hasher is a trusted one-way
black box (§4.1); we embed it as a tagged copy of the plaintext so that
`verify_password` succeeds exactly on the hashed password. -/
def hash_password (password : String) : String :=
  "bcrypt$" ++ password

/-- Modelled from the spec: `verify(plaintext, opaque_hash) -> bool`
(§4.1), true exactly when the hash was produced from the plaintext. -/
def verify_password (plain_password hashed_password : String) : Bool :=
  hash_password plain_password == hashed_password

/-- User lifecycle status (spec §3: status ∈ pending, active, suspended,
deactivated). -/
inductive UserStatus
  | pending
  | active
  | suspended
  | deactivated
deriving Repr, DecidableEq

/-- User record, from the fields the service reads and writes
(`src/models/user.py` is absent from the snapshot; fields are those used
by `services/auth.py` plus the spec's data model §3). -/
structure User where
  id : Nat
  email : String
  password_hash : String
  first_name : String
  last_name : String
  full_name : String
  role : String
  organization_id : Option Nat
  status : UserStatus
  email_verified : Bool
  email_verified_at : Option Nat
  verification_token : Option String
  password_reset_token : Option String
  password_reset_expires : Option Nat
  password_changed_at : Option Nat
  failed_login_count : Nat
  locked_until : Option Nat
  last_login_at : Option Nat
deriving Repr, DecidableEq

/-- Modelled from the spec: `src/models/user.py` is missing; §4.4 check 2
reads "User must not be locked (`locked_until` in the future)". -/
def User.is_locked (u : User) (now : Nat) : Bool :=
  match u.locked_until with
  | Option.some t => now < t
  | Option.none => false

/-- Modelled from the spec: `src/models/user.py` is missing; §4.4 check 3
reads "on mismatch, increment failed_login_count (persisted)". -/
def User.increment_failed_login (u : User) : User :=
  { u with failed_login_count := u.failed_login_count + 1 }

/-- Modelled from the spec: `src/models/user.py` is missing; §4.4 "On
full success: reset failure-tracking, record last_login_at". -/
def User.update_login_tracking (u : User) (now : Nat) : User :=
  { u with failed_login_count := 0, locked_until := Option.none,
           last_login_at := Option.some now }

/-- Modelled from the spec: `src/models/user.py` is missing; §4.4 check 5
"email_verified must be true". -/
def User.is_verified (u : User) : Bool :=
  u.email_verified

/-- Modelled from the spec: `src/models/user.py` is missing; §4.4 refresh
"require user active". -/
def User.is_active_user (u : User) : Bool :=
  u.status == UserStatus.active

/-- Session record (spec §3 "Session"; `UserSession` in the source).
Modelled from the spec where the model file is missing: a session is
created live (`is_active = true`, no revoked_reason). -/
structure UserSession where
  user_id : Nat
  session_token : String
  ip_address : Option String
  user_agent : Option String
  expires_at : Nat
  is_active : Bool
  revoked_reason : Option String
deriving Repr, DecidableEq

/-- Organization record; only the fields `register_user` touches
(`src/models/organization.py` is absent, fields from the callers and
spec §4.4). -/
structure Organization where
  id : Nat
  name : String
  slug : String
  user_count : Nat
deriving Repr, DecidableEq

/-- Modelled from the spec: `increment_usage("user")` bumps the member
count (used by `register_user` to decide the admin role). -/
def Organization.increment_usage (o : Organization) : Organization :=
  { o with user_count := o.user_count + 1 }

/-- Database state visible to the auth service: the `users`,
`organizations` and `user_sessions` tables. -/
structure AuthState where
  users : List User
  organizations : List Organization
  sessions : List UserSession
deriving Repr, DecidableEq

/-- `select(User).where(User.email == email)` + `scalar_one_or_none()`. -/
def findUserByEmail (s : AuthState) (email : String) : Option User :=
  s.users.find? (fun u => u.email == email)

/-- Committed in-place update of the user row(s) with the given id. -/
def updateUser (s : AuthState) (id : Nat) (f : User → User) : AuthState :=
  { s with users := s.users.map (fun u => if u.id == id then f u else u) }

/-- Appends a freshly created session row (`db.add(session)`). -/
def addSession (s : AuthState) (sess : UserSession) : AuthState :=
  { s with sessions := s.sessions ++ [sess] }

/-- Claim set of an access token
(`services/auth.py` lines 123-128 and 314-319). -/
def access_token_data (u : User) : List (String × CVal) :=
  [("sub", CVal.s (toString u.id)),
   ("email", CVal.s u.email),
   ("role", CVal.s u.role),
   ("org_id", match u.organization_id with
              | Option.some i => CVal.n i
              | Option.none => CVal.null)]

/-- `AuthService.create_access_token` (`services/auth.py` lines 42-53):
copies the claim dict, sets `exp = now + delta` (default TTL from
config), signs with the server secret. -/
def create_access_token (cfg : Config) (data : List (String × CVal))
    (expires_delta : Option Nat) (now : Nat) : Token :=
  let expire :=
    match expires_delta with
    | Option.some d => now + d
    | Option.none => now + cfg.JWT_ACCESS_TOKEN_EXPIRE_MINUTES * 60
  Token.signed (dictSetExp data expire) cfg.JWT_SECRET

/-- `AuthService.create_refresh_token` (`services/auth.py` lines 55-63). -/
def create_refresh_token (cfg : Config) (user_id : Nat) (now : Nat) : Token :=
  Token.signed
    [("sub", CVal.s (toString user_id)),
     ("type", CVal.s "refresh"),
     ("exp", CVal.n (now + cfg.JWT_REFRESH_TOKEN_EXPIRE_DAYS * 86400))]
    cfg.JWT_SECRET

/-- `AuthService.verify_token` (`services/auth.py` lines 65-73): any
`JWTError` from decoding is caught and mapped to the generic
`AuthenticationError("Invalid token")`. -/
def verify_token (cfg : Config) (t : Token) (now : Nat) :
    Except Failure (List (String × CVal)) :=
  match jwtDecode t cfg.JWT_SECRET now with
  | Except.ok payload => Except.ok payload
  | Except.error _ => Except.error (Failure.authentication "Invalid token")

/-- `AuthService.validate_password_strength`
(`services/auth.py` lines 347-363): `Option.none` means the password
passes; `some msg` is the `ValidationError` message raised. -/
def validate_password_strength (cfg : Config) (password : String) : Option String :=
  if password.length < cfg.PASSWORD_MIN_LENGTH then
    Option.some ("Password must be at least " ++ toString cfg.PASSWORD_MIN_LENGTH
      ++ " characters long")
  else if cfg.PASSWORD_REQUIRE_UPPERCASE && !(password.toList.any Char.isUpper) then
    Option.some "Password must contain at least one uppercase letter"
  else if cfg.PASSWORD_REQUIRE_LOWERCASE && !(password.toList.any Char.isLower) then
    Option.some "Password must contain at least one lowercase letter"
  else if cfg.PASSWORD_REQUIRE_NUMBERS && !(password.toList.any Char.isDigit) then
    Option.some "Password must contain at least one number"
  else if cfg.PASSWORD_REQUIRE_SPECIAL
      && !(password.toList.any (fun c =>
            "!@#$%^&*()_+-=[]\x7b\x7d|;:,.<>?".toList.contains c)) then
    Option.some "Password must contain at least one special character"
  else
    Option.none

/-- `AuthService.authenticate_user` (`services/auth.py` lines 75-146).
`now` is the current time, `fresh_session_token` the value
`secrets.token_urlsafe(32)` would produce.  The returned state is what
the call committed (note the failed-password branch commits the
incremented counter before raising). -/
def authenticate_user (cfg : Config) (s : AuthState) (email password : String)
    (ip_address user_agent : Option String) (now : Nat)
    (fresh_session_token : String) :
    AuthState × Except Failure (User × Token × Token) :=
  match findUserByEmail s email with
  | Option.none =>
    (s, Except.error (Failure.authentication "Invalid email or password"))
  | Option.some user =>
    if user.is_locked now then
      (s, Except.error (Failure.authentication
        "Account is temporarily locked due to failed login attempts"))
    else if !(verify_password password user.password_hash) then
      (updateUser s user.id User.increment_failed_login,
       Except.error (Failure.authentication "Invalid email or password"))
    else if user.status ≠ UserStatus.active then
      (s, Except.error (Failure.authentication "Account is not active"))
    else if !(user.is_verified) then
      (s, Except.error (Failure.authentication "Email address not verified"))
    else
      let tracked := user.update_login_tracking now
      let access_token := create_access_token cfg (access_token_data tracked)
        Option.none now
      let refresh_token := create_refresh_token cfg tracked.id now
      let sess : UserSession :=
        { user_id := tracked.id,
          session_token := fresh_session_token,
          ip_address := ip_address,
          user_agent := user_agent,
          expires_at := now + cfg.JWT_REFRESH_TOKEN_EXPIRE_DAYS * 86400,
          is_active := true,
          revoked_reason := Option.none }
      (addSession (updateUser s user.id (fun _ => tracked)) sess,
       Except.ok (tracked, access_token, refresh_token))

/-- Python's `re.sub` passes collapsing each run of whitespace into one
hyphen (`re.sub` of `\s+` with `-`), used by `generate_org_slug`. -/
def collapseWs : List Char → Bool → List Char
  | [], _ => []
  | c :: rest, prevWs =>
    if c == ' ' then
      if prevWs then collapseWs rest true else '-' :: collapseWs rest true
    else c :: collapseWs rest false

/-- `AuthService.generate_org_slug` (`services/auth.py` lines 365-375):
lowercase, drop characters other than alphanumerics, whitespace and
hyphens, collapse whitespace runs to hyphens, strip edge hyphens, then
append the random hex suffix (passed in explicitly). -/
def generate_org_slug (name : String) (fresh_suffix : String) : String :=
  let kept := ((name.toList.map Char.toLower).filter
    (fun c => c.isAlphanum || c == ' ' || c == '-'))
  let hyphened := collapseWs kept false
  let stripped :=
    ((hyphened.dropWhile (fun c => c == '-')).reverse.dropWhile
      (fun c => c == '-')).reverse
  String.mk stripped ++ "-" ++ fresh_suffix

/-- `AuthService.register_user` (`services/auth.py` lines 148-217).
Fresh ids and random values are explicit parameters.  Note the source
raises `ValidationError` (not `ConflictError`) on a duplicate email. -/
def register_user (cfg : Config) (s : AuthState)
    (email password first_name last_name : String)
    (organization_name : Option String)
    (fresh_user_id fresh_org_id : Nat)
    (fresh_verification_token fresh_slug_suffix : String) :
    AuthState × Except Failure User :=
  match findUserByEmail s email with
  | Option.some _ =>
    (s, Except.error (Failure.validation "Email address already registered"))
  | Option.none =>
    match validate_password_strength cfg password with
    | Option.some msg => (s, Except.error (Failure.validation msg))
    | Option.none =>
      let password_hash := hash_password password
      let found_org :=
        match organization_name with
        | Option.some oname => s.organizations.find? (fun o => o.name == oname)
        | Option.none => Option.none
      let org :=
        match organization_name, found_org with
        | Option.some oname, Option.none =>
          Option.some { id := fresh_org_id, name := oname,
                        slug := generate_org_slug oname fresh_slug_suffix,
                        user_count := 0 : Organization }
        | _, Option.some o => Option.some o
        | Option.none, Option.none => Option.none
      let is_first_admin :=
        match org with
        | Option.some o => o.user_count == 0
        | Option.none => false
      let user : User :=
        { id := fresh_user_id,
          email := email,
          password_hash := password_hash,
          first_name := first_name,
          last_name := last_name,
          full_name := String.mk ((((first_name ++ " " ++ last_name).toList.dropWhile
            (fun c => c == ' ')).reverse.dropWhile (fun c => c == ' ')).reverse),
          role := if is_first_admin then "admin" else "user",
          organization_id := (org.map (fun o => o.id)),
          status := UserStatus.pending,
          email_verified := false,
          email_verified_at := Option.none,
          verification_token := Option.some fresh_verification_token,
          password_reset_token := Option.none,
          password_reset_expires := Option.none,
          password_changed_at := Option.none,
          failed_login_count := 0,
          locked_until := Option.none,
          last_login_at := Option.none }
      let orgs :=
        match org with
        | Option.some o =>
          let bumped := o.increment_usage
          match found_org with
          | Option.some _ =>
            s.organizations.map (fun x => if x.id == o.id then bumped else x)
          | Option.none => s.organizations ++ [bumped]
        | Option.none => s.organizations
      ({ s with users := s.users ++ [user], organizations := orgs },
       Except.ok user)

/-- `AuthService.verify_email` (`services/auth.py` lines 219-237). -/
def verify_email (s : AuthState) (token : String) (now : Nat) :
    AuthState × Except Failure User :=
  match s.users.find? (fun u => u.verification_token == Option.some token) with
  | Option.none => (s, Except.error (Failure.notFound "Invalid verification token"))
  | Option.some user =>
    let verified :=
      { user with email_verified := true,
                  email_verified_at := Option.some now,
                  verification_token := Option.none,
                  status := UserStatus.active }
    (updateUser s user.id (fun _ => verified), Except.ok verified)

/-- `AuthService.request_password_reset` (`services/auth.py` lines
239-256); the reset window is one hour (3600 seconds). -/
def request_password_reset (s : AuthState) (email : String) (now : Nat)
    (fresh_reset_token : String) : AuthState × Except Failure User :=
  match findUserByEmail s email with
  | Option.none =>
    (s, Except.error (Failure.notFound
      "If this email is registered, you will receive reset instructions"))
  | Option.some user =>
    let updated :=
      { user with password_reset_token := Option.some fresh_reset_token,
                  password_reset_expires := Option.some (now + 3600) }
    (updateUser s user.id (fun _ => updated), Except.ok updated)

/-- `AuthService.reset_password` (`services/auth.py` lines 258-290).  A
user holding a reset token but no expiry would make the Python
comparison `None < datetime` raise an uncaught `TypeError`; the embedding
records that as `uncaughtTypeError`.  When every check passes, the
source mutates the user's fields in memory and then executes
`select(UserSession).where(...).update(...)` (lines 282-286) — but a
SQLAlchemy 2.x `Select` has no `update()` method, so that statement
raises `AttributeError` before `db.commit()` is reached; the request's
transaction is rolled back and nothing is persisted, so the committed
state is the input state and the call never succeeds. -/
def reset_password (cfg : Config) (s : AuthState) (token new_password : String)
    (now : Nat) : AuthState × Except Failure User :=
  match s.users.find? (fun u => u.password_reset_token == Option.some token) with
  | Option.none => (s, Except.error (Failure.notFound "Invalid reset token"))
  | Option.some user =>
    match user.password_reset_expires with
    | Option.none => (s, Except.error Failure.uncaughtTypeError)
    | Option.some expires =>
      if expires < now then
        (s, Except.error (Failure.validation "Reset token has expired"))
      else
        match validate_password_strength cfg new_password with
        | Option.some msg => (s, Except.error (Failure.validation msg))
        | Option.none =>
          -- in-memory updates to user are discarded: the session-revocation
          -- statement crashes with AttributeError before the commit
          (s, Except.error Failure.uncaughtAttributeError)

/-- Value of a nonempty, all-decimal-digit character list. -/
def decDigitsVal? (cs : List Char) : Option Nat :=
  if cs.isEmpty then Option.none
  else if cs.all Char.isDigit then
    Option.some (cs.foldl (fun acc c => acc * 10 + (c.toNat - 48)) 0)
  else Option.none

/-- Python `int(str)` on a decimal string: surrounding whitespace and a
leading sign are accepted, anything else raises `ValueError`. -/
def pyParseInt (str : String) : Option Int :=
  let cs := ((str.toList.dropWhile (fun c => c == ' ')).reverse.dropWhile
    (fun c => c == ' ')).reverse
  match cs with
  | '+' :: rest => (decDigitsVal? rest).map Int.ofNat
  | '-' :: rest => (decDigitsVal? rest).map (fun n => -(Int.ofNat n))
  | rest => (decDigitsVal? rest).map Int.ofNat

/-- Python `int(x)` applied to the optional `sub` claim:
`int(None)` raises `TypeError`, `int` of a non-integer string raises
`ValueError`; both escape `refresh_access_token`'s `except JWTError`. -/
def pyIntOfClaim : Option CVal → Except Failure Int
  | Option.none => Except.error Failure.uncaughtTypeError
  | Option.some CVal.null => Except.error Failure.uncaughtTypeError
  | Option.some (CVal.n v) => Except.ok (Int.ofNat v)
  | Option.some (CVal.s str) =>
    match pyParseInt str with
    | Option.some v => Except.ok v
    | Option.none => Except.error Failure.uncaughtValueError

/-- Outcome of `AuthService.refresh_access_token` (`services/auth.py`
lines 292-324).  The `int(payload.get("sub"))` conversion runs before
the token-type check, inside a `try` that catches only `JWTError`; the
user lookup requires an existing, active user. -/
def refresh_result (cfg : Config) (s : AuthState) (token : Token)
    (now : Nat) : Except Failure (Token × Token) :=
  match jwtDecode token cfg.JWT_SECRET now with
  | Except.error _ =>
    Except.error (Failure.authentication "Invalid refresh token")
  | Except.ok payload =>
    match pyIntOfClaim (lookupClaim payload "sub") with
    | Except.error e => Except.error e
    | Except.ok user_id =>
      if lookupClaim payload "type" ≠ Option.some (CVal.s "refresh") then
        Except.error (Failure.authentication "Invalid token type")
      else
        match s.users.find? (fun u => ((u.id : Int) == user_id)) with
        | Option.none =>
          Except.error (Failure.authentication "User not found or inactive")
        | Option.some user =>
          if !(user.is_active_user) then
            Except.error (Failure.authentication "User not found or inactive")
          else
            Except.ok
              (create_access_token cfg (access_token_data user) Option.none now,
               create_refresh_token cfg user.id now)

/-- `AuthService.refresh_access_token`: the function issues no writes at
all — no session or user row is inserted, updated or deleted — so the
committed state is the input state, whatever the outcome. -/
def refresh_access_token (cfg : Config) (s : AuthState) (token : Token)
    (now : Nat) : AuthState × Except Failure (Token × Token) :=
  (s, refresh_result cfg s token now)

/-- `AuthService.logout_user` (`services/auth.py` lines 326-345).  Both
branches run `select(UserSession).where(...).update(...)` (lines
331-335 and 338-342); a SQLAlchemy 2.x `Select` has no `update()`
method, so either branch raises `AttributeError` before `db.commit()`:
no session is ever revoked and the committed state is the input
state. -/
def logout_user (s : AuthState) (user_id : Nat)
    (session_token : Option String) : AuthState × Except Failure Unit :=
  match session_token with
  | Option.some _ => (s, Except.error Failure.uncaughtAttributeError)
  | Option.none => (s, Except.error Failure.uncaughtAttributeError)

/-! ### Concrete fixtures for counterexamples and witnesses -/

/-- Configuration with the source defaults
(`src/backend/src/core/config.py`). -/
def cfg1 : Config :=
  { JWT_SECRET := "secret1",
    JWT_ACCESS_TOKEN_EXPIRE_MINUTES := 30,
    JWT_REFRESH_TOKEN_EXPIRE_DAYS := 7,
    PASSWORD_MIN_LENGTH := 8,
    PASSWORD_REQUIRE_UPPERCASE := true,
    PASSWORD_REQUIRE_LOWERCASE := true,
    PASSWORD_REQUIRE_NUMBERS := true,
    PASSWORD_REQUIRE_SPECIAL := true }

/-- An already-registered, active, verified user. -/
def aliceActive : User :=
  { id := 1,
    email := "a@x.com",
    password_hash := hash_password "Secr3t!A",
    first_name := "A",
    last_name := "B",
    full_name := "A B",
    role := "user",
    organization_id := Option.none,
    status := UserStatus.active,
    email_verified := true,
    email_verified_at := Option.some 0,
    verification_token := Option.none,
    password_reset_token := Option.none,
    password_reset_expires := Option.none,
    password_changed_at := Option.none,
    failed_login_count := 0,
    locked_until := Option.none,
    last_login_at := Option.none }

/-- Empty database. -/
def st0 : AuthState := { users := [], organizations := [], sessions := [] }

/-- Database holding only `aliceActive`. -/
def st1 : AuthState :=
  { users := [aliceActive], organizations := [], sessions := [] }

/-! ### C1 -/

/-- C1, counterexample to the claim as stated: with `aliceActive`
already registered under `a@x.com`, registering again with that email
(and a password `"x"` that also fails the strength policy) raises
`ValidationError("Email address already registered")`, which is mapped
to HTTP 422 with code `VALIDATION_ERROR` — not the Conflict error
(HTTP 409, `CONFLICT_ERROR`) the claim requires. -/
theorem C1_counterexample :
    (register_user cfg1 st1 "a@x.com" "x" "New" "Person" Option.none 2 1
      "vtok" "ff").2
      = Except.error (Failure.validation "Email address already registered")
    ∧ statusCode (Failure.validation "Email address already registered") = 422
    ∧ statusCode (Failure.validation "Email address already registered") ≠ 409
    ∧ errorCode (Failure.validation "Email address already registered")
        ≠ "CONFLICT_ERROR" := by
  refine ⟨rfl, rfl, by decide, by decide⟩

/-- C1, amended: for every registration request whose email already
belongs to a stored user, `register_user` fails with the Validation
error (HTTP 422) carrying the message "Email address already
registered", regardless of the other fields of the request — in
particular the duplicate-email check precedes the password-strength
check, so even a policy-failing password yields this duplicate-email
failure, and no state is changed. -/
theorem C1_register_duplicate_email (cfg : Config) (s : AuthState)
    (email password first_name last_name : String)
    (orgname : Option String) (uid oid : Nat) (vtok sfx : String)
    (u : User) (hu : u ∈ s.users) (he : u.email = email) :
    register_user cfg s email password first_name last_name orgname uid oid
      vtok sfx
      = (s, Except.error (Failure.validation "Email address already registered"))
    := by
  have hne : findUserByEmail s email ≠ Option.none := by
    intro h
    unfold findUserByEmail at h
    rw [List.find?_eq_none] at h
    exact h u hu (by simp [he])
  obtain ⟨v, hv⟩ := Option.ne_none_iff_exists'.mp hne
  unfold register_user
  rw [hv]

/-- C1, witness: the amended theorem applied to the concrete duplicate
registration of the counterexample. -/
theorem C1_register_duplicate_email_witness :
    register_user cfg1 st1 "a@x.com" "x" "New" "Person" Option.none 2 1
      "vtok" "ff"
      = (st1, Except.error (Failure.validation "Email address already registered"))
    :=
  C1_register_duplicate_email cfg1 st1 "a@x.com" "x" "New" "Person"
    Option.none 2 1 "vtok" "ff" aliceActive (by simp [st1]) rfl

/-! ### C10 -/

/-- C10: a token correctly signed with the server secret whose payload
lacks a `sub` claim makes `refresh_access_token` raise an uncaught
`TypeError` (and a non-decimal `sub` an uncaught `ValueError`) instead
of the `AuthenticationError` used for every other invalid-token case;
the catch-all handler turns these into a generic 500, not a 401. -/
theorem C10_refresh_uncaught_sub_conversion :
    (refresh_access_token cfg1 st0
      (Token.signed [("type", CVal.s "refresh"), ("exp", CVal.n 1000)]
        "secret1") 10).2
      = Except.error Failure.uncaughtTypeError
    ∧ (refresh_access_token cfg1 st0
      (Token.signed [("sub", CVal.s "abc"), ("type", CVal.s "refresh"),
        ("exp", CVal.n 1000)] "secret1") 10).2
      = Except.error Failure.uncaughtValueError
    ∧ statusCode Failure.uncaughtTypeError = 500
    ∧ statusCode Failure.uncaughtValueError = 500
    ∧ statusCode Failure.uncaughtTypeError ≠ 401
    ∧ errorCode Failure.uncaughtTypeError
        ≠ errorCode (Failure.authentication "Invalid refresh token") := by
  refine ⟨rfl, rfl, rfl, rfl, by decide, by decide⟩

/-! ### C2 -/

/-- C2: `authenticate_user` applies its checks in the fixed order —
user existence, account lock, password verification, status = active,
email_verified — failing fast with an AuthenticationError at the first
violated check.  A locked account is rejected with the lock message for
every password (the password is never examined); an inactive or
unverified account is rejected only after its password verifies; and
`failed_login_count` is incremented and persisted exactly when the
password check is the failing one (every other outcome leaves the state
unchanged, and full success resets the counter via
`update_login_tracking`). -/
theorem C2_authenticate_check_order (cfg : Config) (s : AuthState)
    (email password : String) (ip ua : Option String) (now : Nat)
    (fresh : String) :
    (findUserByEmail s email = Option.none →
      authenticate_user cfg s email password ip ua now fresh
        = (s, Except.error (Failure.authentication "Invalid email or password")))
    ∧ (∀ u, findUserByEmail s email = Option.some u →
        (u.is_locked now = true →
          authenticate_user cfg s email password ip ua now fresh
            = (s, Except.error (Failure.authentication
                "Account is temporarily locked due to failed login attempts")))
        ∧ (u.is_locked now = false →
           verify_password password u.password_hash = false →
            authenticate_user cfg s email password ip ua now fresh
              = (updateUser s u.id User.increment_failed_login,
                 Except.error (Failure.authentication "Invalid email or password")))
        ∧ (u.is_locked now = false →
           verify_password password u.password_hash = true →
           u.status ≠ UserStatus.active →
            authenticate_user cfg s email password ip ua now fresh
              = (s, Except.error (Failure.authentication "Account is not active")))
        ∧ (u.is_locked now = false →
           verify_password password u.password_hash = true →
           u.status = UserStatus.active →
           u.email_verified = false →
            authenticate_user cfg s email password ip ua now fresh
              = (s, Except.error (Failure.authentication
                  "Email address not verified")))
        ∧ (u.is_locked now = false →
           verify_password password u.password_hash = true →
           u.status = UserStatus.active →
           u.email_verified = true →
            authenticate_user cfg s email password ip ua now fresh
              = (addSession (updateUser s u.id
                    (fun _ => u.update_login_tracking now))
                  { user_id := (u.update_login_tracking now).id,
                    session_token := fresh,
                    ip_address := ip,
                    user_agent := ua,
                    expires_at := now + cfg.JWT_REFRESH_TOKEN_EXPIRE_DAYS * 86400,
                    is_active := true,
                    revoked_reason := Option.none },
                 Except.ok (u.update_login_tracking now,
                   create_access_token cfg
                     (access_token_data (u.update_login_tracking now))
                     Option.none now,
                   create_refresh_token cfg (u.update_login_tracking now).id
                     now)))) := by
  constructor
  · intro h
    simp [authenticate_user, h]
  · intro u hu
    refine ⟨?_, ?_, ?_, ?_, ?_⟩
    · intro hlock
      simp [authenticate_user, hu, hlock]
    · intro hlock hpw
      simp [authenticate_user, hu, hlock, hpw]
    · intro hlock hpw hstatus
      simp [authenticate_user, hu, hlock, hpw, hstatus]
    · intro hlock hpw hstatus hverif
      simp [authenticate_user, hu, hlock, hpw, hstatus, User.is_verified, hverif]
    · intro hlock hpw hstatus hverif
      simp [authenticate_user, hu, hlock, hpw, hstatus, User.is_verified, hverif]

/-- A locked user: `locked_until` is in the future at time 50. -/
def bobLocked : User :=
  { aliceActive with id := 2, email := "l@x.com",
                     locked_until := Option.some 100 }

/-- Database holding only `bobLocked`. -/
def stLocked : AuthState :=
  { users := [bobLocked], organizations := [], sessions := [] }

/-- C2, witness: the locked account `bobLocked` is rejected with the
lock message even when the supplied password is the correct one. -/
theorem C2_authenticate_check_order_witness :
    authenticate_user cfg1 stLocked "l@x.com" "Secr3t!A" Option.none
      Option.none 50 "st"
      = (stLocked, Except.error (Failure.authentication
          "Account is temporarily locked due to failed login attempts")) :=
  ((C2_authenticate_check_order cfg1 stLocked "l@x.com" "Secr3t!A"
      Option.none Option.none 50 "st").2 bobLocked rfl).1 rfl

/-! ### C3 -/

/-- C3: a login attempt with an email matching no stored user and a
login attempt with a stored (unlocked) user's email but a wrong password
produce errors of the same type with the identical message
"Invalid email or password" — the two error values are equal, so an
observer of the error response cannot tell whether the email exists. -/
theorem C3_login_error_indistinguishable (cfg : Config) (s : AuthState)
    (email1 email2 p1 p2 : String) (ip ua : Option String) (now : Nat)
    (t1 t2 : String) (u : User)
    (h1 : findUserByEmail s email1 = Option.none)
    (h2 : findUserByEmail s email2 = Option.some u)
    (hlock : u.is_locked now = false)
    (hpw : verify_password p2 u.password_hash = false) :
    (authenticate_user cfg s email1 p1 ip ua now t1).2
      = Except.error (Failure.authentication "Invalid email or password")
    ∧ (authenticate_user cfg s email2 p2 ip ua now t2).2
      = Except.error (Failure.authentication "Invalid email or password")
    ∧ (authenticate_user cfg s email1 p1 ip ua now t1).2
      = (authenticate_user cfg s email2 p2 ip ua now t2).2 := by
  have ha : (authenticate_user cfg s email1 p1 ip ua now t1).2
      = Except.error (Failure.authentication "Invalid email or password") := by
    simp [authenticate_user, h1]
  have hb : (authenticate_user cfg s email2 p2 ip ua now t2).2
      = Except.error (Failure.authentication "Invalid email or password") := by
    simp [authenticate_user, h2, hlock, hpw]
  exact ⟨ha, hb, by rw [ha, hb]⟩

/-- C3, witness: in `st1`, logging in as the unknown `nobody@x.com` and
as `a@x.com` with a wrong password yield the identical error value. -/
theorem C3_login_error_indistinguishable_witness :
    (authenticate_user cfg1 st1 "nobody@x.com" "Whatever1!" Option.none
      Option.none 50 "t1").2
      = Except.error (Failure.authentication "Invalid email or password")
    ∧ (authenticate_user cfg1 st1 "a@x.com" "Wrong1!" Option.none
      Option.none 50 "t2").2
      = Except.error (Failure.authentication "Invalid email or password")
    ∧ (authenticate_user cfg1 st1 "nobody@x.com" "Whatever1!" Option.none
      Option.none 50 "t1").2
      = (authenticate_user cfg1 st1 "a@x.com" "Wrong1!" Option.none
        Option.none 50 "t2").2 :=
  C3_login_error_indistinguishable cfg1 st1 "nobody@x.com" "a@x.com"
    "Whatever1!" "Wrong1!" Option.none Option.none 50 "t1" "t2" aliceActive
    rfl rfl rfl rfl

/-! ### C4 -/

/-- Expiry instant embedded by `create_access_token` (now + delta, or
the configured default TTL). -/
def accessTokenExpiry (cfg : Config) (expires_delta : Option Nat)
    (now : Nat) : Nat :=
  match expires_delta with
  | Option.some d => now + d
  | Option.none => now + cfg.JWT_ACCESS_TOKEN_EXPIRE_MINUTES * 60

/-- Unfolding of `create_access_token` through `accessTokenExpiry`. -/
theorem create_access_token_eq (cfg : Config) (data : List (String × CVal))
    (expires_delta : Option Nat) (now : Nat) :
    create_access_token cfg data expires_delta now
      = Token.signed (dictSetExp data (accessTokenExpiry cfg expires_delta now))
          cfg.JWT_SECRET := by
  cases expires_delta <;> rfl

/-- C4: for every claim set carrying no `exp` claim of its own,
creating an access token and immediately verifying it (decoding with
the server secret) succeeds and returns exactly the original claims
plus the expiry claim, whenever the embedded expiry has not elapsed;
decoding once the expiry has elapsed fails with the `Expired` error,
which is distinct from the `InvalidSignature` and `Malformed`
failures. -/
theorem C4_access_token_round_trip (cfg : Config)
    (data : List (String × CVal)) (expires_delta : Option Nat)
    (now now2 : Nat)
    (hnoexp : lookupClaim data "exp" = Option.none) :
    (¬ accessTokenExpiry cfg expires_delta now < now2 →
      jwtDecode (create_access_token cfg data expires_delta now)
          cfg.JWT_SECRET now2
        = Except.ok (data ++ [("exp",
            CVal.n (accessTokenExpiry cfg expires_delta now))]))
    ∧ (accessTokenExpiry cfg expires_delta now < now2 →
      jwtDecode (create_access_token cfg data expires_delta now)
          cfg.JWT_SECRET now2
        = Except.error TokenError.Expired)
    ∧ TokenError.Expired ≠ TokenError.InvalidSignature
    ∧ TokenError.Expired ≠ TokenError.Malformed := by
  have hfind : data.find? (fun p => p.1 == "exp") = Option.none := by
    unfold lookupClaim at hnoexp
    exact Option.map_eq_none'.mp hnoexp
  have hset : dictSetExp data (accessTokenExpiry cfg expires_delta now)
      = data ++ [("exp", CVal.n (accessTokenExpiry cfg expires_delta now))] := by
    unfold dictSetExp
    congr 1
    rw [List.filter_eq_self]
    intro a ha
    have hne := List.find?_eq_none.mp hfind a ha
    simpa using hne
  have hlook : lookupClaim
      (data ++ [("exp", CVal.n (accessTokenExpiry cfg expires_delta now))]) "exp"
      = Option.some (CVal.n (accessTokenExpiry cfg expires_delta now)) := by
    unfold lookupClaim
    rw [List.find?_append, hfind]
    simp
  refine ⟨?_, ?_, by decide, by decide⟩
  · intro hlt
    rw [create_access_token_eq, hset]
    simp [jwtDecode, hlook, hlt]
  · intro hlt
    rw [create_access_token_eq, hset]
    simp [jwtDecode, hlook, hlt]

/-- C4, witness: issuing over claims `sub = "1"` with a 100-second TTL
at time 0 round-trips at time 50 and fails as `Expired` at time 200. -/
theorem C4_access_token_round_trip_witness :
    jwtDecode (create_access_token cfg1 [("sub", CVal.s "1")]
        (Option.some 100) 0) cfg1.JWT_SECRET 50
      = Except.ok [("sub", CVal.s "1"), ("exp", CVal.n 100)]
    ∧ jwtDecode (create_access_token cfg1 [("sub", CVal.s "1")]
        (Option.some 100) 0) cfg1.JWT_SECRET 200
      = Except.error TokenError.Expired :=
  ⟨(C4_access_token_round_trip cfg1 [("sub", CVal.s "1")] (Option.some 100)
      0 50 rfl).1 (by decide),
   (C4_access_token_round_trip cfg1 [("sub", CVal.s "1")] (Option.some 100)
      0 200 rfl).2.1 (by decide)⟩

/-! ### C5 -/

/-- A user holding reset token `"rt"` that expires at time 1000. -/
def carolReset : User :=
  { aliceActive with id := 3, email := "c@x.com",
                     password_reset_token := Option.some "rt",
                     password_reset_expires := Option.some 1000 }

/-- A live session belonging to `carolReset`. -/
def sessCarol : UserSession :=
  { user_id := 3, session_token := "s3", ip_address := Option.none,
    user_agent := Option.none, expires_at := 9999, is_active := true,
    revoked_reason := Option.none }

/-- Database with `carolReset` and her live session. -/
def stReset : AuthState :=
  { users := [carolReset], organizations := [], sessions := [sessCarol] }

/-- C5: the claimed behaviour is unreachable in the source.  With
Carol holding the valid, unexpired token `"rt"` and the
policy-satisfying new password `"NewSecr3t!"`, `reset_password` passes
every check and then executes `select(UserSession).where(...).update(...)`
(`services/auth.py` lines 282-286), which raises `AttributeError` (a
SQLAlchemy 2.x `Select` has no `update()` method) before `db.commit()`:
the call fails with an uncaught exception (mapped to HTTP 500), the
transaction rolls back, and nothing changes — Carol keeps her old
password hash and reset token and her session stays active with no
revoked_reason. -/
theorem C5_reset_password_crash :
    reset_password cfg1 stReset "rt" "NewSecr3t!" 500
      = (stReset, Except.error Failure.uncaughtAttributeError)
    ∧ validate_password_strength cfg1 "NewSecr3t!" = Option.none
    ∧ carolReset.password_reset_token = Option.some "rt"
    ∧ carolReset.password_reset_expires = Option.some 1000
    ∧ ((reset_password cfg1 stReset "rt" "NewSecr3t!" 500).1.sessions.get
        ⟨0, by decide⟩).is_active = true
    ∧ ((reset_password cfg1 stReset "rt" "NewSecr3t!" 500).1.sessions.get
        ⟨0, by decide⟩).revoked_reason = Option.none
    ∧ statusCode Failure.uncaughtAttributeError = 500 := by
  refine ⟨rfl, rfl, rfl, rfl, rfl, rfl, rfl⟩

/-! ### C6 -/

/-- C6: `reset_password` fails with NotFound when no user holds the
token, and with Validation ("Reset token has expired") when the holder's
expiry has passed; in the expired case the operation changes no state —
the state returned is the input state, and the user still holds the
reset token in it. -/
theorem C6_reset_password_failures (cfg : Config) (s : AuthState)
    (token new_password : String) (now : Nat) :
    (s.users.find?
        (fun x => x.password_reset_token == Option.some token) = Option.none →
      reset_password cfg s token new_password now
        = (s, Except.error (Failure.notFound "Invalid reset token")))
    ∧ (∀ u e, s.users.find?
        (fun x => x.password_reset_token == Option.some token) = Option.some u →
       u.password_reset_expires = Option.some e → e < now →
        reset_password cfg s token new_password now
          = (s, Except.error (Failure.validation "Reset token has expired"))
        ∧ u ∈ (reset_password cfg s token new_password now).1.users
        ∧ u.password_reset_token = Option.some token) := by
  constructor
  · intro hnone
    simp [reset_password, hnone]
  · intro u e hfind hexp hlt
    have heq : reset_password cfg s token new_password now
        = (s, Except.error (Failure.validation "Reset token has expired")) := by
      simp [reset_password, hfind, hexp, hlt]
    refine ⟨heq, ?_, ?_⟩
    · rw [heq]
      exact List.mem_of_find?_eq_some hfind
    · have := List.find?_some hfind
      simpa using this

/-- C6, witness: an unknown token fails with NotFound on the empty
database, and Carol's token used at time 2000 (past its expiry 1000)
fails with Validation while the state, token included, is unchanged. -/
theorem C6_reset_password_failures_witness :
    reset_password cfg1 st0 "zz" "NewSecr3t!" 5
      = (st0, Except.error (Failure.notFound "Invalid reset token"))
    ∧ reset_password cfg1 stReset "rt" "NewSecr3t!" 2000
      = (stReset, Except.error (Failure.validation "Reset token has expired"))
    ∧ carolReset ∈ (reset_password cfg1 stReset "rt" "NewSecr3t!" 2000).1.users :=
  ⟨(C6_reset_password_failures cfg1 st0 "zz" "NewSecr3t!" 5).1 rfl,
   ((C6_reset_password_failures cfg1 stReset "rt" "NewSecr3t!" 2000).2
      carolReset 1000 rfl rfl (by decide)).1,
   ((C6_reset_password_failures cfg1 stReset "rt" "NewSecr3t!" 2000).2
      carolReset 1000 rfl rfl (by decide)).2.1⟩

/-! ### C7 -/

/-- C7: `verify_email` is single-use.  A call whose token matches no
stored user fails with NotFound; a call whose token is held by a user
succeeds, returns and stores the user with `email_verified = true`,
`status = active` and `verification_token` cleared; and — provided the
token is held only by that user, per the uniqueness invariant — a
second call with the same token fails with NotFound and changes
nothing. -/
theorem C7_verify_email_single_use (s : AuthState) (token : String)
    (now : Nat) :
    (s.users.find?
        (fun v => v.verification_token == Option.some token) = Option.none →
      verify_email s token now
        = (s, Except.error (Failure.notFound "Invalid verification token")))
    ∧ (∀ u, s.users.find?
        (fun v => v.verification_token == Option.some token) = Option.some u →
        (verify_email s token now).2
          = Except.ok { u with email_verified := true,
                               email_verified_at := Option.some now,
                               verification_token := Option.none,
                               status := UserStatus.active }
        ∧ ({ u with email_verified := true,
                    email_verified_at := Option.some now,
                    verification_token := Option.none,
                    status := UserStatus.active } : User)
            ∈ (verify_email s token now).1.users
        ∧ ((∀ v ∈ s.users, v.verification_token = Option.some token →
              v.id = u.id) →
           ∀ now2, verify_email (verify_email s token now).1 token now2
             = ((verify_email s token now).1,
                Except.error (Failure.notFound "Invalid verification token")))) := by
  constructor
  · intro hnone
    simp [verify_email, hnone]
  · intro u hfind
    have hmem : u ∈ s.users := List.mem_of_find?_eq_some hfind
    refine ⟨?_, ?_, ?_⟩
    · simp [verify_email, hfind]
    · have hmm := List.mem_map_of_mem
        (fun x => if x.id == u.id then
          { u with email_verified := true,
                   email_verified_at := Option.some now,
                   verification_token := Option.none,
                   status := UserStatus.active } else x) hmem
      simp only [beq_self_eq_true, if_true] at hmm
      simpa [verify_email, hfind, updateUser] using hmm
    · intro huniq now2
      have hpost : (verify_email s token now).1
          = updateUser s u.id (fun _ =>
              { u with email_verified := true,
                       email_verified_at := Option.some now,
                       verification_token := Option.none,
                       status := UserStatus.active }) := by
        simp [verify_email, hfind]
      have hnone2 : (verify_email s token now).1.users.find?
          (fun v => v.verification_token == Option.some token)
          = Option.none := by
        rw [hpost]
        rw [List.find?_eq_none]
        intro x hx
        simp only [updateUser] at hx
        rw [List.mem_map] at hx
        obtain ⟨y, hy, hxy⟩ := hx
        by_cases hid : y.id = u.id
        · rw [if_pos (by simpa using hid)] at hxy
          subst hxy
          simp
        · rw [if_neg (by simpa using hid)] at hxy
          subst hxy
          intro hcontra
          exact hid (huniq y hy (by simpa using hcontra))
      generalize hq : (verify_email s token now).1 = s2 at hnone2 ⊢
      simp [verify_email, hnone2]

/-- An unverified, pending user holding verification token `"vt"`. -/
def evePending : User :=
  { aliceActive with id := 4, email := "e@x.com",
                     status := UserStatus.pending,
                     email_verified := false,
                     email_verified_at := Option.none,
                     verification_token := Option.some "vt" }

/-- Database holding only `evePending`. -/
def stVerify : AuthState :=
  { users := [evePending], organizations := [], sessions := [] }

/-- C7, witness: verifying Eve's token succeeds, and a second call with
the same (now-consumed) token fails with NotFound. -/
theorem C7_verify_email_single_use_witness :
    (verify_email stVerify "vt" 100).2
      = Except.ok { evePending with email_verified := true,
                                    email_verified_at := Option.some 100,
                                    verification_token := Option.none,
                                    status := UserStatus.active }
    ∧ verify_email (verify_email stVerify "vt" 100).1 "vt" 200
      = ((verify_email stVerify "vt" 100).1,
         Except.error (Failure.notFound "Invalid verification token")) :=
  ⟨((C7_verify_email_single_use stVerify "vt" 100).2 evePending rfl).1,
   ((C7_verify_email_single_use stVerify "vt" 100).2 evePending rfl).2.2
     (by decide) 200⟩

/-! ### C8 -/

/-- C8: `refresh_access_token` leaves the state — in particular the
Session table — unchanged whether it succeeds or fails, and it succeeds
exactly when the token decodes under the server secret, its `sub` claim
converts to an integer, its `type` claim is `"refresh"`, and the user
with that id exists and is active. -/
theorem C8_refresh_frame_and_success (cfg : Config) (s : AuthState)
    (token : Token) (now : Nat) :
    (refresh_access_token cfg s token now).1 = s
    ∧ (refresh_access_token cfg s token now).1.sessions = s.sessions
    ∧ ((∃ p, (refresh_access_token cfg s token now).2 = Except.ok p) ↔
       (∃ payload uid u,
         jwtDecode token cfg.JWT_SECRET now = Except.ok payload
         ∧ pyIntOfClaim (lookupClaim payload "sub") = Except.ok uid
         ∧ lookupClaim payload "type" = Option.some (CVal.s "refresh")
         ∧ s.users.find? (fun x => ((x.id : Int) == uid)) = Option.some u
         ∧ u.is_active_user = true)) := by
  refine ⟨rfl, rfl, ?_⟩
  constructor
  · rintro ⟨p, hp⟩
    have hp2 : refresh_result cfg s token now = Except.ok p := hp
    unfold refresh_result at hp2
    cases hd : jwtDecode token cfg.JWT_SECRET now with
    | error e =>
      simp only [hd] at hp2
      exact Except.noConfusion hp2
    | ok payload =>
      simp only [hd] at hp2
      cases hpi : pyIntOfClaim (lookupClaim payload "sub") with
      | error e =>
        simp only [hpi] at hp2
        exact Except.noConfusion hp2
      | ok uid =>
        simp only [hpi] at hp2
        by_cases ht : lookupClaim payload "type"
            = Option.some (CVal.s "refresh")
        · rw [if_neg (not_not_intro ht)] at hp2
          cases hf : s.users.find? (fun x => ((x.id : Int) == uid)) with
          | none =>
            simp only [hf] at hp2
            exact Except.noConfusion hp2
          | some u =>
            simp only [hf] at hp2
            cases ha : u.is_active_user with
            | false =>
              rw [ha] at hp2
              simp at hp2
            | true => exact ⟨payload, uid, u, rfl, hpi, ht, hf, ha⟩
        · rw [if_pos ht] at hp2
          exact Except.noConfusion hp2
  · rintro ⟨payload, uid, u, hd, hpi, ht, hf, ha⟩
    refine ⟨(create_access_token cfg (access_token_data u) Option.none now,
             create_refresh_token cfg u.id now), ?_⟩
    show refresh_result cfg s token now = _
    unfold refresh_result
    simp [hd, hpi, ht, hf, ha]

/-- C8, witness: refreshing with a genuine refresh token for the
active `aliceActive` leaves the state untouched and succeeds. -/
theorem C8_refresh_frame_and_success_witness :
    (refresh_access_token cfg1 st1 (create_refresh_token cfg1 1 0) 10).1 = st1
    ∧ (∃ p, (refresh_access_token cfg1 st1
        (create_refresh_token cfg1 1 0) 10).2 = Except.ok p) :=
  ⟨(C8_refresh_frame_and_success cfg1 st1 (create_refresh_token cfg1 1 0) 10).1,
   ((C8_refresh_frame_and_success cfg1 st1
      (create_refresh_token cfg1 1 0) 10).2.2).mpr
     ⟨[("sub", CVal.s "1"), ("type", CVal.s "refresh"),
       ("exp", CVal.n 604800)], 1, aliceActive, rfl, rfl, rfl, rfl, rfl⟩⟩

/-! ### C9 -/

/-- Auth Service operations the session-reactivation claim quantifies
over: authenticate, logout, reset_password. -/
inductive AuthOp
  | authenticate (email password : String) (ip ua : Option String)
      (now : Nat) (fresh : String)
  | logout (user_id : Nat) (session_token : Option String)
  | resetPassword (token new_password : String) (now : Nat)

/-- Committed state after one Auth Service operation. -/
def applyOp (cfg : Config) (s : AuthState) : AuthOp → AuthState
  | AuthOp.authenticate e p i a n f => (authenticate_user cfg s e p i a n f).1
  | AuthOp.logout uid st => (logout_user s uid st).1
  | AuthOp.resetPassword t np n => (reset_password cfg s t np n).1

/-- Committed state after a sequence of Auth Service operations. -/
def runOps (cfg : Config) (s : AuthState) (ops : List AuthOp) : AuthState :=
  ops.foldl (applyOp cfg) s

/-- Shape of the session table after one operation: either unchanged
(every failure path, and logout/reset_password, whose revocation
statements crash before committing) or with one fresh session appended
(successful authenticate).  No existing session row is ever
modified. -/
theorem applyOp_sessions_shape (cfg : Config) (s : AuthState)
    (op : AuthOp) :
    (applyOp cfg s op).sessions = s.sessions
    ∨ (∃ x, (applyOp cfg s op).sessions = s.sessions ++ [x]) := by
  cases op with
  | authenticate e p i a n f =>
    simp only [applyOp, authenticate_user]
    split
    · exact Or.inl rfl
    · split
      · exact Or.inl rfl
      · split
        · exact Or.inl rfl
        · split
          · exact Or.inl rfl
          · split
            · exact Or.inl rfl
            · exact Or.inr ⟨_, rfl⟩
  | logout uid st =>
    cases st with
    | none => exact Or.inl rfl
    | some tok => exact Or.inl rfl
  | resetPassword t np n =>
    simp only [applyOp, reset_password]
    split
    · exact Or.inl rfl
    · split
      · exact Or.inl rfl
      · split
        · exact Or.inl rfl
        · split
          · exact Or.inl rfl
          · exact Or.inl rfl

/-- No single operation shortens the session table (sessions are only
ever appended, never deleted). -/
theorem applyOp_sessions_length (cfg : Config) (s : AuthState)
    (op : AuthOp) :
    s.sessions.length ≤ (applyOp cfg s op).sessions.length := by
  rcases applyOp_sessions_shape cfg s op with h | ⟨x, h⟩
  · rw [h]
  · rw [h]; simp

/-- No single operation flips a stored session from inactive back to
active: an existing session slot that was inactive stays inactive. -/
theorem applyOp_preserves_inactive (cfg : Config) (s : AuthState)
    (op : AuthOp) (i : Nat) (h1 : i < s.sessions.length)
    (h2 : i < (applyOp cfg s op).sessions.length)
    (hin : (s.sessions.get ⟨i, h1⟩).is_active = false) :
    ((applyOp cfg s op).sessions.get ⟨i, h2⟩).is_active = false := by
  simp only [List.get_eq_getElem] at hin ⊢
  rcases applyOp_sessions_shape cfg s op with h | ⟨x, h⟩
  · simp only [h]
    exact hin
  · simp only [h]
    rw [List.getElem_append_left h1]
    exact hin

/-- C9, amended: over every sequence of Auth Service operations
(authenticate, logout, reset_password), no stored session ever
transitions from `is_active = false` back to `is_active = true` — the
session slot keeps `is_active = false` in the state reached by running
the sequence.  Operations only ever create new sessions or leave the
stored ones untouched: contrary to the claim's mechanism clause, logout
and reset_password never set `is_active` to false either, because their
revocation statements crash with `AttributeError` before committing
(see the counterexample). -/
theorem C9_sessions_never_reactivated (cfg : Config) (s : AuthState)
    (ops : List AuthOp) (i : Nat) (h1 : i < s.sessions.length)
    (h2 : i < (runOps cfg s ops).sessions.length)
    (hin : (s.sessions.get ⟨i, h1⟩).is_active = false) :
    ((runOps cfg s ops).sessions.get ⟨i, h2⟩).is_active = false := by
  induction ops generalizing s with
  | nil => exact hin
  | cons op rest ih =>
    have hmid : i < (applyOp cfg s op).sessions.length :=
      lt_of_lt_of_le h1 (applyOp_sessions_length cfg s op)
    exact ih (applyOp cfg s op) hmid h2
      (applyOp_preserves_inactive cfg s op i h1 hmid hin)

/-- A live session belonging to Alice. -/
def sessAlive : UserSession :=
  { user_id := 1, session_token := "live1", ip_address := Option.none,
    user_agent := Option.none, expires_at := 9999, is_active := true,
    revoked_reason := Option.none }

/-- Database with Alice and her live session. -/
def stC9live : AuthState :=
  { users := [aliceActive], organizations := [], sessions := [sessAlive] }

/-- C9, counterexample to the claim's mechanism clause as stated
("operations ... set is_active to false"): a logout-all for Alice, who
has a matching live session, raises an uncaught `AttributeError`
(`select(...).update(...)` at `services/auth.py` lines 338-342; a
SQLAlchemy 2.x `Select` has no `update()`) and leaves her session
active with no revoked_reason — the claimed deactivating transition
never occurs in the program. -/
theorem C9_counterexample :
    logout_user stC9live 1 Option.none
      = (stC9live, Except.error Failure.uncaughtAttributeError)
    ∧ ((logout_user stC9live 1 Option.none).1.sessions.get
        ⟨0, by decide⟩).is_active = true
    ∧ ((logout_user stC9live 1 Option.none).1.sessions.get
        ⟨0, by decide⟩).revoked_reason = Option.none := by
  refine ⟨rfl, rfl, rfl⟩

/-- A session of Alice's that is already inactive. -/
def sessInactive : UserSession :=
  { user_id := 1, session_token := "dead", ip_address := Option.none,
    user_agent := Option.none, expires_at := 9999, is_active := false,
    revoked_reason := Option.some "user_logout" }

/-- Database with Alice and her inactive session. -/
def stC9 : AuthState :=
  { users := [aliceActive], organizations := [], sessions := [sessInactive] }

/-- C9, witness: after a logout-all, a successful login and a password
reset, Alice's initially inactive session is still inactive. -/
theorem C9_sessions_never_reactivated_witness :
    ((runOps cfg1 stC9
      [AuthOp.logout 1 Option.none,
       AuthOp.authenticate "a@x.com" "Secr3t!A" Option.none Option.none 50 "fresh1",
       AuthOp.resetPassword "nope" "NewSecr3t!" 60]).sessions.get
        ⟨0, by decide⟩).is_active = false :=
  C9_sessions_never_reactivated cfg1 stC9
    [AuthOp.logout 1 Option.none,
     AuthOp.authenticate "a@x.com" "Secr3t!A" Option.none Option.none 50 "fresh1",
     AuthOp.resetPassword "nope" "NewSecr3t!" 60]
    0 (by decide) (by decide) (by decide)

end FlowAI
